import Mathlib

/-!
# Metal Basket Tokens (MBT) — verification of the basket accounting and rebalancing engine

Shallow embedding of the two chaincode modules
`src/mbt-platform/src/blockchain/mbt_basket_chaincode.go` and
`src/mbt-platform/src/blockchain/mbt_rebalancing_chaincode.go`.

Modelling conventions:
* Go `float64` amounts are modelled as exact rationals (`ℚ`); the spec's
  "within tolerance" phrases are settled as exact equalities, which imply
  every nonzero tolerance.
* Timestamps (RFC3339 strings in the source) are modelled as their parse
  result, `Option ℚ`, measured in days: `none` is a missing/unparsable
  timestamp, `some t` a timestamp `t` days after the epoch.  `time.Since x`
  in days becomes `now - t` for an explicit `now : ℚ`.
* The Fabric key/value world state is modelled per record kind: the token
  store is a list of tokens with unique `tokenID` keys (`PutState` replaces
  the entry of the same key, `DelState` removes it), and the singleton
  `BASKET_HOLDINGS` record is threaded explicitly.
* Fallible chaincode functions return `Except MBTError`; an error return
  leaves the (explicitly threaded) state unchanged, exactly as returning
  before any `PutState` does in the source.
* Purely cosmetic record fields (composition metadata in percent, request
  and operation id strings, `triggerReason` log text) are not modelled:
  nothing in the contract logic reads them.
-/

namespace MBT

/-- Error kinds surfaced by the chaincode (the Go code returns
`fmt.Errorf` strings; only the identity of each failure matters here). -/
inductive MBTError
  | insufficientBalance
  | tokenNotFound
  | unauthorized
  | insufficientTokenBalance
  | notReady
deriving DecidableEq, Repr

/-- `MBTToken` (basket chaincode lines 24-34).  `lastRebalance` and
`creationTime` are RFC3339 strings in the source, written from `time.Now()`;
both are modelled as the day-number `now` current at the write. -/
structure MBTToken where
  tokenID : String
  owner : String
  totalValue : ℚ
  bgtAmount : ℚ
  bstAmount : ℚ
  bptAmount : ℚ
  creationTime : ℚ
  lastRebalance : ℚ
deriving DecidableEq, Repr

/-- `BasketHolding` (basket chaincode lines 37-44).  `lastRebalance` is the
parse result of the stored RFC3339 string: `none` = missing/unparsable. -/
structure BasketHolding where
  totalMBTSupply : ℚ
  totalBGTValue : ℚ
  totalBSTValue : ℚ
  totalBPTValue : ℚ
  rebalanceNeeded : Bool
  lastRebalance : Option ℚ
deriving DecidableEq, Repr

/-- Composition constants (basket chaincode lines 52-56). -/
def GOLD_ALLOCATION : ℚ := 1/2

def SILVER_ALLOCATION : ℚ := 3/10

def PLATINUM_ALLOCATION : ℚ := 1/5

/-- Rebalancing threshold constants (basket chaincode lines 59-62). -/
def MAX_DEVIATION_PERCENT : ℚ := 1/20

def REBALANCE_INTERVAL_DAYS : ℚ := 30

/-- `abs` (basket chaincode lines 279-284). -/
def qabs (x : ℚ) : ℚ := if x < 0 then -x else x

/-- `GetUserBalance` (lines 365-368) is a simulation stub that returns
1000000 regardless of user and amount. -/
def GetUserBalance : ℚ := 1000000

/-- The zero-state holdings record initialized by `GetBasketHoldings`
(lines 176-187) when no record exists; its `LastRebalance` is written from
`time.Now()`, here the parameter `t0`. -/
def initialHoldings (t0 : ℚ) : BasketHolding :=
  { totalMBTSupply := 0, totalBGTValue := 0, totalBSTValue := 0,
    totalBPTValue := 0, rebalanceNeeded := false, lastRebalance := some t0 }

/-- `CheckRebalanceNeeded` (basket chaincode lines 237-276). -/
def checkRebalanceNeeded (now : ℚ) (holdings : BasketHolding) : Bool :=
  if holdings.totalMBTSupply = 0 then false
  else
    let totalValue := holdings.totalBGTValue + holdings.totalBSTValue + holdings.totalBPTValue
    if totalValue = 0 then false
    else
      let goldDeviation := qabs (holdings.totalBGTValue / totalValue - GOLD_ALLOCATION)
      let silverDeviation := qabs (holdings.totalBSTValue / totalValue - SILVER_ALLOCATION)
      let platinumDeviation := qabs (holdings.totalBPTValue / totalValue - PLATINUM_ALLOCATION)
      if goldDeviation > MAX_DEVIATION_PERCENT ∨ silverDeviation > MAX_DEVIATION_PERCENT ∨
          platinumDeviation > MAX_DEVIATION_PERCENT then true
      else
        match holdings.lastRebalance with
        | none => true -- lines 265-268: unparsable date triggers rebalance
        | some t => decide (now - t ≥ REBALANCE_INTERVAL_DAYS)

/-- `UpdateBasketHoldings` (basket chaincode lines 200-234): applies the
additive (mint) or subtractive (redeem) deltas, then recomputes the
`RebalanceNeeded` flag on the updated record. -/
def updateBasketHoldings (now : ℚ) (holdings : BasketHolding)
    (mbtAmount bgtValue bstValue bptValue : ℚ) (isMint : Bool) : BasketHolding :=
  let h1 :=
    if isMint then
      { holdings with
        totalMBTSupply := holdings.totalMBTSupply + mbtAmount,
        totalBGTValue := holdings.totalBGTValue + bgtValue,
        totalBSTValue := holdings.totalBSTValue + bstValue,
        totalBPTValue := holdings.totalBPTValue + bptValue }
    else
      { holdings with
        totalMBTSupply := holdings.totalMBTSupply - mbtAmount,
        totalBGTValue := holdings.totalBGTValue - bgtValue,
        totalBSTValue := holdings.totalBSTValue - bstValue,
        totalBPTValue := holdings.totalBPTValue - bptValue }
  { h1 with rebalanceNeeded := checkRebalanceNeeded now h1 }

/-- Token-store `PutState` on the key/value world state: replaces the entry
whose key equals the new token's id, otherwise adds it. -/
def putToken (tokens : List MBTToken) (t : MBTToken) : List MBTToken :=
  t :: tokens.filter (fun u => u.tokenID ≠ t.tokenID)

/-- Token-store `DelState`. -/
def delToken (tokens : List MBTToken) (tokenID : String) : List MBTToken :=
  tokens.filter (fun u => u.tokenID ≠ tokenID)

/-- The basket ledger state: the token records plus the
`BASKET_HOLDINGS` singleton. -/
structure LedgerState where
  tokens : List MBTToken
  holdings : BasketHolding
deriving DecidableEq, Repr

/-- `MintMBT` (basket chaincode lines 65-135).  The generated token id
`fmt.Sprintf("MBT-%d", time.Now().UnixNano())` is taken as the parameter
`tokenID`; `DeductUserBalance` and `AllocateToMetalTokens` are simulation
stubs that always succeed (lines 137-147, 370-375). Note the source checks
only the simulated payer balance: there is no `totalAmount <= 0` check. -/
def mintMBT (now : ℚ) (tokenID owner : String) (totalAmount : ℚ)
    (s : LedgerState) : Except MBTError LedgerState :=
  if GetUserBalance < totalAmount then Except.error MBTError.insufficientBalance
  else
    let goldAmount := totalAmount * GOLD_ALLOCATION
    let silverAmount := totalAmount * SILVER_ALLOCATION
    let platinumAmount := totalAmount * PLATINUM_ALLOCATION
    let mbtToken : MBTToken :=
      { tokenID := tokenID, owner := owner, totalValue := totalAmount,
        bgtAmount := goldAmount, bstAmount := silverAmount, bptAmount := platinumAmount,
        creationTime := now, lastRebalance := now }
    Except.ok
      { tokens := putToken s.tokens mbtToken,
        holdings := updateBasketHoldings now s.holdings totalAmount goldAmount
          silverAmount platinumAmount true }

/-- `RedeemMBT` (basket chaincode lines 287-351).  `ProcessMetalRedemption`
is a stub that always succeeds (lines 354-362). The only guards are token
existence, ownership, and `amount > token.TotalValue`. -/
def redeemMBT (now : ℚ) (tokenID userID : String) (amount : ℚ)
    (s : LedgerState) : Except MBTError LedgerState :=
  match s.tokens.find? (fun u => u.tokenID = tokenID) with
  | none => Except.error MBTError.tokenNotFound
  | some token =>
    if token.owner ≠ userID then Except.error MBTError.unauthorized
    else if token.totalValue < amount then Except.error MBTError.insufficientTokenBalance
    else
      let redemptionRatio := amount / token.totalValue
      let redemptionBGT := token.bgtAmount * redemptionRatio
      let redemptionBST := token.bstAmount * redemptionRatio
      let redemptionBPT := token.bptAmount * redemptionRatio
      let tokens1 :=
        if amount = token.totalValue then delToken s.tokens tokenID
        else
          putToken s.tokens
            { token with
              totalValue := token.totalValue - amount,
              bgtAmount := token.bgtAmount - redemptionBGT,
              bstAmount := token.bstAmount - redemptionBST,
              bptAmount := token.bptAmount - redemptionBPT,
              lastRebalance := now }
      Except.ok
        { tokens := tokens1,
          holdings := updateBasketHoldings now s.holdings amount redemptionBGT
            redemptionBST redemptionBPT false }

/-- `RebalanceBasket` (basket chaincode lines 378-430): when the cached
`RebalanceNeeded` flag is set and the holdings are nonempty, sets the three
constituent totals to the exact target allocation of the current total. -/
def rebalanceBasket (now : ℚ) (s : LedgerState) : Except MBTError LedgerState :=
  let holdings := s.holdings
  if holdings.rebalanceNeeded = false then Except.ok s
  else
    let totalValue := holdings.totalBGTValue + holdings.totalBSTValue + holdings.totalBPTValue
    if totalValue = 0 then Except.ok s
    else
      Except.ok
        { s with
          holdings :=
            { holdings with
              totalBGTValue := totalValue * GOLD_ALLOCATION,
              totalBSTValue := totalValue * SILVER_ALLOCATION,
              totalBPTValue := totalValue * PLATINUM_ALLOCATION,
              rebalanceNeeded := false,
              lastRebalance := some now } }

/-- Constituent prices, as returned by the price stubs `GetMBTPrices`
(basket chaincode lines 433-441) and `GetCurrentMetalPrices` (rebalancing
chaincode lines 347-356). -/
structure MetalPrices where
  bgt : ℚ
  bst : ℚ
  bpt : ℚ
deriving DecidableEq, Repr

/-- The hard-coded price map of both price stubs. -/
def GetMBTPrices : MetalPrices := { bgt := 5800, bst := 75, bpt := 3200 }

/-- `CalculateMBTNAV` (basket chaincode lines 451-476), with the price map
as an explicit input. -/
def calculateMBTNAV (holdings : BasketHolding) (prices : MetalPrices) : ℚ :=
  let totalValue := holdings.totalBGTValue * prices.bgt +
    holdings.totalBSTValue * prices.bst + holdings.totalBPTValue * prices.bpt
  if holdings.totalMBTSupply = 0 then 0
  else totalValue / holdings.totalMBTSupply

/-! ## Rebalancing chaincode (`mbt_rebalancing_chaincode.go`) -/

/-- `RebalancePolicy` (rebalancing chaincode lines 44-54); the cosmetic
`PolicyID`/`Name` strings are not modelled. -/
structure RebalancePolicy where
  goldAllocation : ℚ
  silverAllocation : ℚ
  platinumAllocation : ℚ
  maxDeviationPercent : ℚ
  rebalanceIntervalDays : ℤ
  minTradeAmount : ℚ
  approvalThreshold : ℚ
deriving DecidableEq, Repr

/-- The policy written by `InitializePolicy` (lines 62-87). -/
def defaultPolicy : RebalancePolicy :=
  { goldAllocation := 1/2, silverAllocation := 3/10, platinumAllocation := 1/5,
    maxDeviationPercent := 1/20, rebalanceIntervalDays := 30,
    minTradeAmount := 1000, approvalThreshold := 100000 }

/-- Request trigger kinds: the Go `RequestType` strings "DEVIATION"/"TIME". -/
inductive TriggerType
  | DEVIATION
  | TIME
deriving DecidableEq, Repr

/-- Request lifecycle states: the Go `Status` strings. -/
inductive Status
  | PENDING
  | APPROVED
  | EXECUTED
  | FAILED
deriving DecidableEq, Repr

/-- `RebalanceRequest` (rebalancing chaincode lines 17-29); the cosmetic
`RequestID`/`BasketID`/`TriggerReason` strings are not modelled, and the
allocation maps are spelled out per constituent. -/
structure RebalanceRequest where
  requestType : TriggerType
  currentGold : ℚ
  currentSilver : ℚ
  currentPlatinum : ℚ
  targetGold : ℚ
  targetSilver : ℚ
  targetPlatinum : ℚ
  devGold : ℚ
  devSilver : ℚ
  devPlatinum : ℚ
  status : Status
  createdAt : ℚ
  executedAt : Option ℚ
  approvalRequired : Bool
deriving DecidableEq, Repr

/-- Sum of the three constituent totals, as computed at rebalancing
chaincode line 130 (and basket chaincode line 242). -/
def holdingsTotalValue (h : BasketHolding) : ℚ :=
  h.totalBGTValue + h.totalBSTValue + h.totalBPTValue

/-- Gold deviation `currentAlloc["gold"] - targetAlloc["gold"]`
(rebalancing chaincode lines 136-155). -/
def deviationGold (h : BasketHolding) (p : RebalancePolicy) : ℚ :=
  h.totalBGTValue / holdingsTotalValue h - p.goldAllocation

/-- Silver deviation. -/
def deviationSilver (h : BasketHolding) (p : RebalancePolicy) : ℚ :=
  h.totalBSTValue / holdingsTotalValue h - p.silverAllocation

/-- Platinum deviation. -/
def deviationPlatinum (h : BasketHolding) (p : RebalancePolicy) : ℚ :=
  h.totalBPTValue / holdingsTotalValue h - p.platinumAllocation

/-- The `maxDeviation` computed by the loop at rebalancing chaincode lines
157-169: the maximum of the three absolute deviations (the loop keeps a
running maximum starting at 0, and every `math.Abs` value is ≥ 0, so the
iteration order of the Go map does not matter). -/
def maxAbsDeviation (h : BasketHolding) (p : RebalancePolicy) : ℚ :=
  max (max (qabs (deviationGold h p)) (qabs (deviationSilver h p)))
    (qabs (deviationPlatinum h p))

/-- `daysSinceRebalance` as computed by `EvaluateRebalanceNeed` (lines
172-178): an unparsable/missing `LastRebalance` is replaced by
`time.Now().Add(-24 * time.Hour)` ("assume recent rebalance"), which makes
`daysSinceRebalance` equal to exactly 1 day. -/
def evalDaysSinceRebalance (now : ℚ) (h : BasketHolding) : ℚ :=
  match h.lastRebalance with
  | none => 1
  | some t => now - t

/-- The `triggerType` field after the two trigger checks of
`EvaluateRebalanceNeed` (lines 157-185): the deviation loop sets it to
"DEVIATION" exactly when some absolute deviation exceeds the running
maximum started at 0, i.e. when `maxAbsDeviation > 0`; the time check then
overwrites it with "TIME" only when the schedule is overdue and the
deviation threshold was not reached.  `none` models the empty string. -/
def evalTriggerType (now : ℚ) (h : BasketHolding) (p : RebalancePolicy) : Option TriggerType :=
  if evalDaysSinceRebalance now h ≥ (p.rebalanceIntervalDays : ℚ) ∧
      maxAbsDeviation h p < p.maxDeviationPercent then
    some TriggerType.TIME
  else if 0 < maxAbsDeviation h p then some TriggerType.DEVIATION
  else none

/-- The `ApprovalRequired` computation of `CreateRebalanceRequest` (lines
226-244): the largest `totalValue * |deviation|` over the constituents with
nonzero deviation (0 when there is none, since the running maximum starts
at 0), compared to the policy's approval threshold. -/
def approvalRequiredFor (p : RebalancePolicy) (totalValue dGold dSilver dPlatinum : ℚ) : Bool :=
  let vGold := if dGold = 0 then 0 else totalValue * qabs dGold
  let vSilver := if dSilver = 0 then 0 else totalValue * qabs dSilver
  let vPlatinum := if dPlatinum = 0 then 0 else totalValue * qabs dPlatinum
  let maxTradeAmount := max 0 (max (max vGold vSilver) vPlatinum)
  decide (maxTradeAmount ≥ p.approvalThreshold)

/-- The request stored by `CreateRebalanceRequest` (lines 202-266) for the
given holdings snapshot: status PENDING and the computed approval flag.
(`GenerateRebalanceOperations`, lines 269-344, additionally stores the
per-constituent trade operations; they are not modelled because
`ExecuteOperation` (lines 485-496) unconditionally succeeds and no modelled
behavior reads them.) -/
def mkRebalanceRequest (now : ℚ) (h : BasketHolding) (p : RebalancePolicy)
    (ty : TriggerType) : RebalanceRequest :=
  { requestType := ty,
    currentGold := h.totalBGTValue / holdingsTotalValue h,
    currentSilver := h.totalBSTValue / holdingsTotalValue h,
    currentPlatinum := h.totalBPTValue / holdingsTotalValue h,
    targetGold := p.goldAllocation,
    targetSilver := p.silverAllocation,
    targetPlatinum := p.platinumAllocation,
    devGold := deviationGold h p,
    devSilver := deviationSilver h p,
    devPlatinum := deviationPlatinum h p,
    status := Status.PENDING,
    createdAt := now,
    executedAt := none,
    approvalRequired := approvalRequiredFor p (holdingsTotalValue h)
      (deviationGold h p) (deviationSilver h p) (deviationPlatinum h p) }

/-- `EvaluateRebalanceNeed` (rebalancing chaincode lines 110-199), as the
request it stores (`none` when it returns without creating one).  The final
creation gate (line 188) requires a nonempty trigger type *and*
`maxDeviation >= policy.MaxDeviationPercent`. -/
def evaluateRebalanceNeed (now : ℚ) (h : BasketHolding) (p : RebalancePolicy) :
    Option RebalanceRequest :=
  if h.totalMBTSupply = 0 then none
  else if holdingsTotalValue h = 0 then none
  else
    match evalTriggerType now h p with
    | none => none
    | some ty =>
      if maxAbsDeviation h p ≥ p.maxDeviationPercent then
        some (mkRebalanceRequest now h p ty)
      else none

/-- `UpdateBasketAfterRebalance` (rebalancing chaincode lines 499-528):
*adds* `deviations[a] * totalValue` to each constituent total, clears the
`RebalanceNeeded` flag and stamps `LastRebalance`.  (When the total is 0 it
returns before writing.) -/
def updateBasketAfterRebalance (now : ℚ) (holdings : BasketHolding)
    (dGold dSilver dPlatinum : ℚ) : BasketHolding :=
  let totalValue := holdings.totalBGTValue + holdings.totalBSTValue + holdings.totalBPTValue
  if totalValue = 0 then holdings
  else
    { holdings with
      totalBGTValue := holdings.totalBGTValue + dGold * totalValue,
      totalBSTValue := holdings.totalBSTValue + dSilver * totalValue,
      totalBPTValue := holdings.totalBPTValue + dPlatinum * totalValue,
      rebalanceNeeded := false,
      lastRebalance := some now }

/-- The hard-coded holdings returned by the rebalancing contract's own
`GetBasketHoldings` (lines 531-542): a mock snapshot, not the basket
ledger's `BASKET_HOLDINGS` record (spec §9 flags this). -/
def rebalGetBasketHoldings (now : ℚ) : BasketHolding :=
  { totalMBTSupply := 10000, totalBGTValue := 5000, totalBSTValue := 3000,
    totalBPTValue := 2000, rebalanceNeeded := false, lastRebalance := some (now - 35) }

/-- `ExecuteRebalance` (rebalancing chaincode lines 404-482) on a stored
request and a holdings snapshot (the snapshot the source actually uses is
`rebalGetBasketHoldings`, read inside `UpdateBasketAfterRebalance`).
The readiness gate (line 416) is the exact source condition.  The
per-operation loop is elided: `ExecuteOperation` (lines 485-496) returns
`nil` unconditionally, so the `FAILED` branch is unreachable and every
gate-passing run "completes with all operations succeeding"; on that full
success the request becomes EXECUTED and the holdings are updated. -/
def executeRebalance (now : ℚ) (req : RebalanceRequest) (h : BasketHolding) :
    Except MBTError (RebalanceRequest × BasketHolding) :=
  if req.status ≠ Status.APPROVED ∧
      ¬(req.status = Status.PENDING ∧ req.approvalRequired = false) then
    Except.error MBTError.notReady
  else
    Except.ok
      ({ req with status := Status.EXECUTED, executedAt := some now },
        updateBasketAfterRebalance now h req.devGold req.devSilver req.devPlatinum)

/-! ## Reachable ledger states

`Reachable` closes the zero-initialized ledger under the basket chaincode's
three state-writing operations, each taken with exactly the guards the code
performs (a constructor applies only when the operation returns `ok`).  The
mint constructor carries the freshness of the generated token id: the source
generates `MBT-<UnixNano>` ids, which never collide with a stored token. -/
inductive Reachable : LedgerState → Prop
  | init (t0 : ℚ) : Reachable { tokens := [], holdings := initialHoldings t0 }
  | mint {s s' : LedgerState} (now : ℚ) (tid owner : String) (amt : ℚ) :
      Reachable s →
      s.tokens.find? (fun u => u.tokenID = tid) = none →
      mintMBT now tid owner amt s = Except.ok s' → Reachable s'
  | redeem {s s' : LedgerState} (now : ℚ) (tid userID : String) (amt : ℚ) :
      Reachable s →
      redeemMBT now tid userID amt s = Except.ok s' → Reachable s'
  | rebalance {s s' : LedgerState} (now : ℚ) :
      Reachable s →
      rebalanceBasket now s = Except.ok s' → Reachable s'

/-- `ReachableNN` restricts `Reachable` to non-negative mint and redeem
amounts (the restriction the missing `totalAmount <= 0` guard would have
enforced).  This is the reachable-state space of the amended C5. -/
inductive ReachableNN : LedgerState → Prop
  | init (t0 : ℚ) : ReachableNN { tokens := [], holdings := initialHoldings t0 }
  | mint {s s' : LedgerState} (now : ℚ) (tid owner : String) (amt : ℚ) :
      ReachableNN s → 0 ≤ amt →
      s.tokens.find? (fun u => u.tokenID = tid) = none →
      mintMBT now tid owner amt s = Except.ok s' → ReachableNN s'
  | redeem {s s' : LedgerState} (now : ℚ) (tid userID : String) (amt : ℚ) :
      ReachableNN s → 0 ≤ amt →
      redeemMBT now tid userID amt s = Except.ok s' → ReachableNN s'
  | rebalance {s s' : LedgerState} (now : ℚ) :
      ReachableNN s →
      rebalanceBasket now s = Except.ok s' → ReachableNN s'

/-- Total face value of the stored tokens. -/
def tokensSupply (tokens : List MBTToken) : ℚ :=
  (tokens.map MBTToken.totalValue).sum

/-- A stored token as mint creates and redeem maintains it: non-negative
value, split exactly at the composition fractions. -/
def tokenWellFormed (t : MBTToken) : Prop :=
  0 ≤ t.totalValue ∧
  t.bgtAmount = t.totalValue * GOLD_ALLOCATION ∧
  t.bstAmount = t.totalValue * SILVER_ALLOCATION ∧
  t.bptAmount = t.totalValue * PLATINUM_ALLOCATION

/-- The inductive ledger invariant: well-formed tokens with unique ids,
aggregate supply equal to the tokens' total face value, and aggregate
constituent totals exactly at the composition fractions of the supply. -/
def ledgerInv (s : LedgerState) : Prop :=
  (∀ t ∈ s.tokens, tokenWellFormed t) ∧
  (s.tokens.map MBTToken.tokenID).Nodup ∧
  s.holdings.totalMBTSupply = tokensSupply s.tokens ∧
  s.holdings.totalBGTValue = s.holdings.totalMBTSupply * GOLD_ALLOCATION ∧
  s.holdings.totalBSTValue = s.holdings.totalMBTSupply * SILVER_ALLOCATION ∧
  s.holdings.totalBPTValue = s.holdings.totalMBTSupply * PLATINUM_ALLOCATION

/-! ## Concrete fixtures used by the claim theorems and witnesses -/

/-- The empty ledger, zero-initialized at epoch 0. -/
def initialState : LedgerState := { tokens := [], holdings := initialHoldings 0 }

/-- The spec §8 drifted holdings: gold fraction 0.60, deviation 0.10. -/
def h1 : BasketHolding :=
  { totalMBTSupply := 10000, totalBGTValue := 6000, totalBSTValue := 2500,
    totalBPTValue := 1500, rebalanceNeeded := true, lastRebalance := some 0 }

/-- The request the evaluator creates from `h1` under the default policy. -/
def req1 : RebalanceRequest :=
  { requestType := TriggerType.DEVIATION,
    currentGold := 3/5, currentSilver := 1/4, currentPlatinum := 3/20,
    targetGold := 1/2, targetSilver := 3/10, targetPlatinum := 1/5,
    devGold := 1/10, devSilver := -1/20, devPlatinum := -1/20,
    status := Status.PENDING, createdAt := 0, executedAt := none,
    approvalRequired := false }

/-- `req1` after a successful Execute at time 0. -/
def req1executed : RebalanceRequest :=
  { req1 with status := Status.EXECUTED, executedAt := some 0 }

/-- What `UpdateBasketAfterRebalance` actually makes of `h1` for `req1`:
each constituent is pushed *away* from target, to `(2·current − target)·Σ`. -/
def h1after : BasketHolding :=
  { totalMBTSupply := 10000, totalBGTValue := 7000, totalBSTValue := 2000,
    totalBPTValue := 1000, rebalanceNeeded := false, lastRebalance := some 0 }

/-- The token minted by `MintMBT(alice, -100)`. -/
def tokNeg : MBTToken :=
  { tokenID := "MBT-1", owner := "alice", totalValue := -100, bgtAmount := -50,
    bstAmount := -30, bptAmount := -20, creationTime := 0, lastRebalance := 0 }

/-- The holdings after minting −100 from the zero state. -/
def hNeg : BasketHolding :=
  { totalMBTSupply := -100, totalBGTValue := -50, totalBSTValue := -30,
    totalBPTValue := -20, rebalanceNeeded := false, lastRebalance := some 0 }

/-- The ledger after `MintMBT(alice, -100)` from the zero state. -/
def sNeg : LedgerState := { tokens := [tokNeg], holdings := hNeg }

/-- The token minted by `MintMBT(alice, 1000)`. -/
def tok1000 : MBTToken :=
  { tokenID := "MBT-1", owner := "alice", totalValue := 1000, bgtAmount := 500,
    bstAmount := 300, bptAmount := 200, creationTime := 0, lastRebalance := 0 }

/-- The ledger after `MintMBT(alice, 1000)` from the zero state. -/
def s1000 : LedgerState :=
  { tokens := [tok1000],
    holdings :=
      { totalMBTSupply := 1000, totalBGTValue := 500, totalBSTValue := 300,
        totalBPTValue := 200, rebalanceNeeded := false, lastRebalance := some 0 } }

/-- Holdings exactly on target whose last rebalance is 35 days overdue
at `now = 35`. -/
def hOnTarget : BasketHolding :=
  { totalMBTSupply := 10000, totalBGTValue := 5000, totalBSTValue := 3000,
    totalBPTValue := 2000, rebalanceNeeded := false, lastRebalance := some 0 }

/-- Nonempty holdings with a missing/unparsable `LastRebalance`. -/
def hNoTs : BasketHolding :=
  { totalMBTSupply := 100, totalBGTValue := 50, totalBSTValue := 30,
    totalBPTValue := 20, rebalanceNeeded := false, lastRebalance := none }

/-- A stored token held by bob, used for the redeem claims. -/
def tokC : MBTToken :=
  { tokenID := "T1", owner := "bob", totalValue := 1000, bgtAmount := 500,
    bstAmount := 300, bptAmount := 200, creationTime := 0, lastRebalance := 0 }

/-- A ledger holding exactly `tokC`. -/
def s10 : LedgerState :=
  { tokens := [tokC],
    holdings :=
      { totalMBTSupply := 1000, totalBGTValue := 500, totalBSTValue := 300,
        totalBPTValue := 200, rebalanceNeeded := false, lastRebalance := some 0 } }

/-- A FAILED request, used to exercise the Execute gate. -/
def reqFailed : RebalanceRequest := { req1 with status := Status.FAILED }

/-! ## Helper lemmas -/

theorem tokensSupply_cons (t : MBTToken) (ts : List MBTToken) :
    tokensSupply (t :: ts) = t.totalValue + tokensSupply ts := by
  simp [tokensSupply]

theorem tokensSupply_delToken (ts : List MBTToken) (tid : String) (t : MBTToken)
    (hnd : (ts.map MBTToken.tokenID).Nodup)
    (hfind : ts.find? (fun u => u.tokenID = tid) = some t) :
    tokensSupply (delToken ts tid) = tokensSupply ts - t.totalValue := by
  induction ts with
  | nil => simp at hfind
  | cons a l ih =>
    rw [List.map_cons, List.nodup_cons] at hnd
    by_cases hid : a.tokenID = tid
    · rw [List.find?_cons_of_pos _ (by simp [hid])] at hfind
      have hta : t = a := (Option.some.inj hfind).symm
      have hl : l.filter (fun u => !decide (u.tokenID = tid)) = l := by
        rw [List.filter_eq_self]
        intro u hu
        simp only [Bool.not_eq_true', decide_eq_false_iff_not]
        intro hc
        exact hnd.1 (hid ▸ hc ▸ List.mem_map_of_mem MBTToken.tokenID hu)
      simp only [delToken, List.filter_cons, hid, tokensSupply_cons, hta]
      simp [hl, tokensSupply_cons]
    · rw [List.find?_cons_of_neg _ (by simp [hid])] at hfind
      simp only [delToken] at ih ⊢
      rw [List.filter_cons_of_pos (by simp [hid]), tokensSupply_cons,
        tokensSupply_cons, ih hnd.2 hfind]
      ring

theorem putToken_fresh (ts : List MBTToken) (t : MBTToken)
    (hfresh : ts.find? (fun u => u.tokenID = t.tokenID) = none) :
    putToken ts t = t :: ts := by
  unfold putToken
  congr 1
  rw [List.filter_eq_self]
  intro u hu
  simpa using List.find?_eq_none.mp hfresh u hu

theorem updateBasketHoldings_sub_supply (now : ℚ) (h : BasketHolding) (m b s2 p : ℚ) :
    (updateBasketHoldings now h m b s2 p false).totalMBTSupply = h.totalMBTSupply - m := by
  simp [updateBasketHoldings]

theorem updateBasketHoldings_sub_bgt (now : ℚ) (h : BasketHolding) (m b s2 p : ℚ) :
    (updateBasketHoldings now h m b s2 p false).totalBGTValue = h.totalBGTValue - b := by
  simp [updateBasketHoldings]

theorem updateBasketHoldings_sub_bst (now : ℚ) (h : BasketHolding) (m b s2 p : ℚ) :
    (updateBasketHoldings now h m b s2 p false).totalBSTValue = h.totalBSTValue - s2 := by
  simp [updateBasketHoldings]

theorem updateBasketHoldings_sub_bpt (now : ℚ) (h : BasketHolding) (m b s2 p : ℚ) :
    (updateBasketHoldings now h m b s2 p false).totalBPTValue = h.totalBPTValue - p := by
  simp [updateBasketHoldings]

theorem tokensSupply_putToken (ts : List MBTToken) (tid : String) (t t2 : MBTToken)
    (hnd : (ts.map MBTToken.tokenID).Nodup)
    (hfind : ts.find? (fun u => u.tokenID = tid) = some t)
    (hid2 : t2.tokenID = tid) :
    tokensSupply (putToken ts t2) = t2.totalValue + (tokensSupply ts - t.totalValue) := by
  unfold putToken
  rw [tokensSupply_cons]
  congr 1
  have hfe : ts.filter (fun u => u.tokenID ≠ t2.tokenID) = delToken ts tid := by
    simp only [delToken, hid2]
  rw [hfe, tokensSupply_delToken ts tid t hnd hfind]

/-- Mint preserves the ledger invariant when the minted amount is
non-negative and the generated id is fresh. -/
theorem ledgerInv_mint {s s' : LedgerState} (now : ℚ) (tid owner : String) (amt : ℚ)
    (hinv : ledgerInv s) (hamt : 0 ≤ amt)
    (hfresh : s.tokens.find? (fun u => u.tokenID = tid) = none)
    (hok : mintMBT now tid owner amt s = Except.ok s') : ledgerInv s' := by
  obtain ⟨hwf, hnd, hsup, hbgt, hbst, hbpt⟩ := hinv
  by_cases hbal : GetUserBalance < amt
  · simp [mintMBT, hbal] at hok
  · simp only [mintMBT, if_neg hbal, Except.ok.injEq] at hok
    subst hok
    have hput := putToken_fresh s.tokens
      { tokenID := tid, owner := owner, totalValue := amt,
        bgtAmount := amt * GOLD_ALLOCATION, bstAmount := amt * SILVER_ALLOCATION,
        bptAmount := amt * PLATINUM_ALLOCATION, creationTime := now, lastRebalance := now }
      (by simpa using hfresh)
    refine ⟨?_, ?_, ?_, ?_, ?_, ?_⟩
    · intro u hu
      rw [hput] at hu
      rcases List.mem_cons.mp hu with h | h
      · subst h
        exact ⟨hamt, rfl, rfl, rfl⟩
      · exact hwf u h
    · rw [hput, List.map_cons, List.nodup_cons]
      refine ⟨?_, hnd⟩
      intro hc
      obtain ⟨u, hu, hid⟩ := List.mem_map.mp hc
      exact absurd hid (by simpa using List.find?_eq_none.mp hfresh u hu)
    · rw [hput, tokensSupply_cons]
      simp only [updateBasketHoldings]
      simp [hsup]
      ring
    · simp only [updateBasketHoldings]
      simp [hbgt]
      ring
    · simp only [updateBasketHoldings]
      simp [hbst]
      ring
    · simp only [updateBasketHoldings]
      simp [hbpt]
      ring

/-- Redeem preserves the ledger invariant for non-negative amounts. -/
theorem ledgerInv_redeem {s s' : LedgerState} (now : ℚ) (tid uid : String) (amt : ℚ)
    (hinv : ledgerInv s) (hamt : 0 ≤ amt)
    (hok : redeemMBT now tid uid amt s = Except.ok s') : ledgerInv s' := by
  obtain ⟨hwf, hnd, hsup, hbgt, hbst, hbpt⟩ := hinv
  unfold redeemMBT at hok
  rcases hfind : s.tokens.find? (fun u => u.tokenID = tid) with _ | t
  · rw [hfind] at hok
    exact Except.noConfusion hok
  · rw [hfind] at hok
    dsimp only at hok
    by_cases how : t.owner ≠ uid
    · rw [if_pos how] at hok
      exact Except.noConfusion hok
    rw [if_neg how] at hok
    by_cases hlt : t.totalValue < amt
    · rw [if_pos hlt] at hok
      exact Except.noConfusion hok
    rw [if_neg hlt] at hok
    have htmem : t ∈ s.tokens := List.mem_of_find?_eq_some hfind
    have htid : t.tokenID = tid := by simpa using List.find?_some hfind
    obtain ⟨htv0, htg, hts, htp⟩ := hwf t htmem
    by_cases heq : amt = t.totalValue
    · rw [if_pos heq] at hok
      simp only [Except.ok.injEq] at hok
      subst hok
      have hdg : t.bgtAmount * (amt / t.totalValue) = t.totalValue * GOLD_ALLOCATION := by
        by_cases h0 : t.totalValue = 0
        · rw [htg, h0]
          simp
        · rw [heq, div_self h0, mul_one, htg]
      have hds : t.bstAmount * (amt / t.totalValue) = t.totalValue * SILVER_ALLOCATION := by
        by_cases h0 : t.totalValue = 0
        · rw [hts, h0]
          simp
        · rw [heq, div_self h0, mul_one, hts]
      have hdp : t.bptAmount * (amt / t.totalValue) = t.totalValue * PLATINUM_ALLOCATION := by
        by_cases h0 : t.totalValue = 0
        · rw [htp, h0]
          simp
        · rw [heq, div_self h0, mul_one, htp]
      refine ⟨fun u hu => hwf u (List.mem_of_mem_filter hu), ?_, ?_, ?_, ?_, ?_⟩
      · exact List.Nodup.sublist ((List.filter_sublist _).map _) hnd
      · rw [updateBasketHoldings_sub_supply,
          tokensSupply_delToken s.tokens tid t hnd hfind, hsup, heq]
      · rw [updateBasketHoldings_sub_bgt, updateBasketHoldings_sub_supply, hdg, hbgt, heq]
        ring
      · rw [updateBasketHoldings_sub_bst, updateBasketHoldings_sub_supply, hds, hbst, heq]
        ring
      · rw [updateBasketHoldings_sub_bpt, updateBasketHoldings_sub_supply, hdp, hbpt, heq]
        ring
    · rw [if_neg heq] at hok
      simp only [Except.ok.injEq] at hok
      subst hok
      have hltv : amt < t.totalValue := lt_of_le_of_ne (not_lt.mp hlt) heq
      have htvpos : 0 < t.totalValue := lt_of_le_of_lt hamt hltv
      have htvne : t.totalValue ≠ 0 := ne_of_gt htvpos
      have hdg : t.bgtAmount * (amt / t.totalValue) = amt * GOLD_ALLOCATION := by
        rw [htg]
        field_simp
        ring
      have hds : t.bstAmount * (amt / t.totalValue) = amt * SILVER_ALLOCATION := by
        rw [hts]
        field_simp
        ring
      have hdp : t.bptAmount * (amt / t.totalValue) = amt * PLATINUM_ALLOCATION := by
        rw [htp]
        field_simp
        ring
      refine ⟨?_, ?_, ?_, ?_, ?_, ?_⟩
      · intro u hu
        unfold putToken at hu
        rcases List.mem_cons.mp hu with h | h
        · subst h
          refine ⟨by dsimp only; linarith, ?_, ?_, ?_⟩
          · dsimp only
            rw [hdg, htg]
            ring
          · dsimp only
            rw [hds, hts]
            ring
          · dsimp only
            rw [hdp, htp]
            ring
        · exact hwf u (List.mem_of_mem_filter h)
      · unfold putToken
        rw [List.map_cons, List.nodup_cons]
        constructor
        · intro hc
          obtain ⟨u, hu, hid⟩ := List.mem_map.mp hc
          have hmf := List.mem_filter.mp hu
          simp only [ne_eq, decide_not, Bool.not_eq_true', decide_eq_false_iff_not] at hmf
          exact hmf.2 hid
        · exact List.Nodup.sublist ((List.filter_sublist _).map _) hnd
      · dsimp only
        rw [tokensSupply_putToken s.tokens tid t
            { t with
              totalValue := t.totalValue - amt,
              bgtAmount := t.bgtAmount - t.bgtAmount * (amt / t.totalValue),
              bstAmount := t.bstAmount - t.bstAmount * (amt / t.totalValue),
              bptAmount := t.bptAmount - t.bptAmount * (amt / t.totalValue),
              lastRebalance := now }
            hnd hfind htid,
          updateBasketHoldings_sub_supply, hsup]
        dsimp only
        ring
      · rw [updateBasketHoldings_sub_bgt, updateBasketHoldings_sub_supply, hdg, hbgt]
        ring
      · rw [updateBasketHoldings_sub_bst, updateBasketHoldings_sub_supply, hds, hbst]
        ring
      · rw [updateBasketHoldings_sub_bpt, updateBasketHoldings_sub_supply, hdp, hbpt]
        ring

/-- `RebalanceBasket` preserves the ledger invariant. -/
theorem ledgerInv_rebalance {s s' : LedgerState} (now : ℚ)
    (hinv : ledgerInv s) (hok : rebalanceBasket now s = Except.ok s') : ledgerInv s' := by
  obtain ⟨hwf, hnd, hsup, hbgt, hbst, hbpt⟩ := hinv
  unfold rebalanceBasket at hok
  by_cases hflag : s.holdings.rebalanceNeeded = false
  · rw [if_pos hflag] at hok
    simp only [Except.ok.injEq] at hok
    subst hok
    exact ⟨hwf, hnd, hsup, hbgt, hbst, hbpt⟩
  rw [if_neg hflag] at hok
  by_cases htot : s.holdings.totalBGTValue + s.holdings.totalBSTValue + s.holdings.totalBPTValue = 0
  · rw [if_pos htot] at hok
    simp only [Except.ok.injEq] at hok
    subst hok
    exact ⟨hwf, hnd, hsup, hbgt, hbst, hbpt⟩
  rw [if_neg htot] at hok
  simp only [Except.ok.injEq] at hok
  subst hok
  have hsum : s.holdings.totalBGTValue + s.holdings.totalBSTValue + s.holdings.totalBPTValue =
      s.holdings.totalMBTSupply := by
    rw [hbgt, hbst, hbpt]
    norm_num [GOLD_ALLOCATION, SILVER_ALLOCATION, PLATINUM_ALLOCATION]
    ring
  exact ⟨hwf, hnd, hsup, by simp [hsum], by simp [hsum], by simp [hsum]⟩

/-- Every sign-restricted reachable state satisfies the ledger invariant. -/
theorem reachableNN_ledgerInv {s : LedgerState} (hs : ReachableNN s) : ledgerInv s := by
  induction hs with
  | init t0 =>
    refine ⟨by simp, by simp, ?_, ?_, ?_, ?_⟩ <;>
      simp [tokensSupply, initialHoldings]
  | mint now tid owner amt hr hamt hfresh hok ih =>
    exact ledgerInv_mint now tid owner amt ih hamt hfresh hok
  | redeem now tid uid amt hr hamt hok ih =>
    exact ledgerInv_redeem now tid uid amt ih hamt hok
  | rebalance now hr hok ih =>
    exact ledgerInv_rebalance now ih hok

/-! ## Claim C1 -/

/-- C1: the claim says a fully successful Execute run updates the holdings
to the target allocation (`constituentTotals[a] = Σ · targetFractions[a]`).
The code does not: `UpdateBasketAfterRebalance` *adds* `deviation ·
totalValue` (deviation = current − target), doubling the drift instead of
cancelling it.  Concretely, from holdings (10000, 6000, 2500, 1500) the
evaluator creates exactly the PENDING request `req1` with deviations
(0.10, −0.05, −0.05) and `approvalRequired = false`; Execute passes the
gate, all operations succeed, the request becomes EXECUTED,
`rebalanceNeeded` is cleared and `lastRebalanceAt` stamped as claimed — but
the gold total becomes 7000, not the target 5000 = Σ · 0.5. -/
theorem c1_executor_misses_target :
    evaluateRebalanceNeed 0 h1 defaultPolicy = some req1 ∧
    executeRebalance 0 req1 h1 = Except.ok (req1executed, h1after) ∧
    holdingsTotalValue h1 * defaultPolicy.goldAllocation = 5000 ∧
    h1after.totalBGTValue = 7000 ∧
    h1after.totalBGTValue ≠ holdingsTotalValue h1 * defaultPolicy.goldAllocation ∧
    h1after.rebalanceNeeded = false ∧ h1after.lastRebalance = some 0 := by
  refine ⟨?_, ?_, ?_, ?_, ?_, rfl, rfl⟩
  · norm_num [evaluateRebalanceNeed, evalTriggerType, maxAbsDeviation, deviationGold,
      deviationSilver, deviationPlatinum, holdingsTotalValue, qabs, evalDaysSinceRebalance,
      h1, defaultPolicy, mkRebalanceRequest, approvalRequiredFor, req1]
  · norm_num [executeRebalance, req1, req1executed, updateBasketAfterRebalance, h1, h1after]
  · norm_num [holdingsTotalValue, h1, defaultPolicy]
  · norm_num [h1after]
  · norm_num [h1after, holdingsTotalValue, h1, defaultPolicy]

/-! ## Claim C2 -/

/-- C2 counterexample: the claim says `Mint` with `totalAmount ≤ 0` fails
with `InvalidAmount`, creates no token and leaves holdings unchanged.  In
the code `MintMBT(alice, -100)` from the zero-initialized ledger *succeeds*
(the only guard is the simulated balance check `1000000 < -100`, which
passes), stores a token of value −100, and pushes AggregateHoldings to
supply −100 and gold total −50. -/
theorem c2_counterexample :
    mintMBT 0 ("MBT-1") ("alice") (-100) initialState = Except.ok sNeg ∧
    sNeg.tokens.find? (fun u => u.tokenID = "MBT-1") = some tokNeg ∧
    sNeg.holdings.totalMBTSupply = -100 ∧ sNeg.holdings.totalBGTValue = -50 := by
  refine ⟨?_, ?_, rfl, rfl⟩
  · norm_num [mintMBT, GetUserBalance, initialHoldings, initialState, putToken,
      updateBasketHoldings, checkRebalanceNeeded, qabs, GOLD_ALLOCATION, SILVER_ALLOCATION,
      PLATINUM_ALLOCATION, MAX_DEVIATION_PERCENT, REBALANCE_INTERVAL_DAYS, sNeg, tokNeg, hNeg]
  · simp [sNeg, tokNeg, List.find?]

/-- C2 amended: `MintMBT` performs no positivity check on `totalAmount`;
it fails only when the simulated payer balance (1000000) is below
`totalAmount`.  For every `totalAmount ≤ 1000000` — including zero and
negative amounts — the mint succeeds, stores a token of that value split at
the composition fractions, and adds the (possibly non-positive) deltas to
AggregateHoldings. -/
theorem c2_amended_no_positivity_check (now : ℚ) (tid owner : String) (totalAmount : ℚ)
    (s : LedgerState) (hbal : totalAmount ≤ GetUserBalance) :
    ∃ s', mintMBT now tid owner totalAmount s = Except.ok s' ∧
      s'.tokens.find? (fun u => u.tokenID = tid) = some
        { tokenID := tid, owner := owner, totalValue := totalAmount,
          bgtAmount := totalAmount * GOLD_ALLOCATION,
          bstAmount := totalAmount * SILVER_ALLOCATION,
          bptAmount := totalAmount * PLATINUM_ALLOCATION,
          creationTime := now, lastRebalance := now } ∧
      s'.holdings.totalMBTSupply = s.holdings.totalMBTSupply + totalAmount ∧
      s'.holdings.totalBGTValue = s.holdings.totalBGTValue + totalAmount * GOLD_ALLOCATION ∧
      s'.holdings.totalBSTValue = s.holdings.totalBSTValue + totalAmount * SILVER_ALLOCATION ∧
      s'.holdings.totalBPTValue = s.holdings.totalBPTValue + totalAmount * PLATINUM_ALLOCATION := by
  have hlt : ¬ GetUserBalance < totalAmount := not_lt.mpr hbal
  simp only [mintMBT, if_neg hlt]
  refine ⟨_, rfl, ?_, ?_, ?_, ?_, ?_⟩
  · simp [putToken, List.find?_cons_of_pos]
  all_goals simp [updateBasketHoldings]

/-- C2 witness: the amended theorem applied at `totalAmount = -100` on the
zero-initialized ledger. -/
theorem c2_witness :
    (-100 : ℚ) ≤ GetUserBalance ∧
    ∃ s', mintMBT 0 ("MBT-1") ("alice") (-100) initialState = Except.ok s' ∧
      s'.tokens.find? (fun u => u.tokenID = "MBT-1") = some
        { tokenID := "MBT-1", owner := "alice", totalValue := -100,
          bgtAmount := (-100 : ℚ) * GOLD_ALLOCATION,
          bstAmount := (-100 : ℚ) * SILVER_ALLOCATION,
          bptAmount := (-100 : ℚ) * PLATINUM_ALLOCATION,
          creationTime := 0, lastRebalance := 0 } ∧
      s'.holdings.totalMBTSupply = initialState.holdings.totalMBTSupply + (-100) ∧
      s'.holdings.totalBGTValue =
        initialState.holdings.totalBGTValue + (-100 : ℚ) * GOLD_ALLOCATION ∧
      s'.holdings.totalBSTValue =
        initialState.holdings.totalBSTValue + (-100 : ℚ) * SILVER_ALLOCATION ∧
      s'.holdings.totalBPTValue =
        initialState.holdings.totalBPTValue + (-100 : ℚ) * PLATINUM_ALLOCATION :=
  ⟨by norm_num [GetUserBalance],
    c2_amended_no_positivity_check 0 ("MBT-1") ("alice") (-100) initialState
      (by norm_num [GetUserBalance])⟩

/-! ## Claim C3 -/

/-- C3: for holdings with positive supply and positive constituent total
(and a positive deviation threshold, as configured), the evaluator creates
a request of type DEVIATION exactly when
`maxAbsDeviation ≥ policy.maxDeviationPercent` — the boundary case `=` is
included, and the elapsed time `now` does not matter (the statement holds
for every `now`). -/
theorem c3_deviation_trigger_iff (now : ℚ) (h : BasketHolding) (p : RebalancePolicy)
    (hs : 0 < h.totalMBTSupply) (ht : 0 < holdingsTotalValue h)
    (hp : 0 < p.maxDeviationPercent) :
    (∃ req, evaluateRebalanceNeed now h p = some req ∧
      req.requestType = TriggerType.DEVIATION) ↔
    maxAbsDeviation h p ≥ p.maxDeviationPercent := by
  have hs0 : ¬ h.totalMBTSupply = 0 := ne_of_gt hs
  have ht0 : ¬ holdingsTotalValue h = 0 := ne_of_gt ht
  constructor
  · rintro ⟨req, hreq, -⟩
    by_contra hm
    unfold evaluateRebalanceNeed at hreq
    rw [if_neg hs0, if_neg ht0] at hreq
    rcases hty : evalTriggerType now h p with _ | ty
    · simp only [hty] at hreq
      exact Option.noConfusion hreq
    · simp only [hty] at hreq
      rw [if_neg hm] at hreq
      exact Option.noConfusion hreq
  · intro hm
    refine ⟨mkRebalanceRequest now h p TriggerType.DEVIATION, ?_, rfl⟩
    unfold evaluateRebalanceNeed
    rw [if_neg hs0, if_neg ht0]
    have htt : evalTriggerType now h p = some TriggerType.DEVIATION := by
      unfold evalTriggerType
      rw [if_neg, if_pos (lt_of_lt_of_le hp hm)]
      rintro ⟨-, hlt⟩
      exact absurd hm (not_le.mpr hlt)
    simp only [htt]
    rw [if_pos hm]

/-- C3 witness: the spec §8 example holdings (gold 0.60, deviation 0.10)
under the default policy, at the boundary-covering threshold 0.05. -/
theorem c3_witness :
    (∃ req, evaluateRebalanceNeed 0 h1 defaultPolicy = some req ∧
      req.requestType = TriggerType.DEVIATION) ↔
    maxAbsDeviation h1 defaultPolicy ≥ defaultPolicy.maxDeviationPercent :=
  c3_deviation_trigger_iff 0 h1 defaultPolicy (by norm_num [h1])
    (by norm_num [holdingsTotalValue, h1]) (by norm_num [defaultPolicy])

/-! ## Claim C4 -/

/-- C4: when the schedule is overdue
(`daysSinceLastRebalance ≥ policy.rebalanceIntervalDays`) but the maximum
absolute deviation is below the threshold, `EvaluateRebalanceNeed` creates
no request: the final creation gate requires
`maxDeviation ≥ policy.maxDeviationPercent` regardless of trigger type, so
a pure time-based overdue state is never actionable. -/
theorem c4_time_only_no_request (now : ℚ) (h : BasketHolding) (p : RebalancePolicy)
    (hover : evalDaysSinceRebalance now h ≥ (p.rebalanceIntervalDays : ℚ))
    (hdev : maxAbsDeviation h p < p.maxDeviationPercent) :
    evaluateRebalanceNeed now h p = none := by
  have htt : evalTriggerType now h p = some TriggerType.TIME := by
    unfold evalTriggerType
    rw [if_pos ⟨hover, hdev⟩]
  unfold evaluateRebalanceNeed
  simp only [htt]
  rw [if_neg (not_le.mpr hdev)]
  split_ifs <;> rfl

/-- C4 witness: exactly-on-target holdings whose last rebalance is 35 days
old, evaluated under the default 30-day policy. -/
theorem c4_witness : evaluateRebalanceNeed 35 hOnTarget defaultPolicy = none :=
  c4_time_only_no_request 35 hOnTarget defaultPolicy
    (by norm_num [evalDaysSinceRebalance, hOnTarget, defaultPolicy])
    (by norm_num [maxAbsDeviation, deviationGold, deviationSilver, deviationPlatinum,
      holdingsTotalValue, qabs, hOnTarget, defaultPolicy])

/-! ## Claim C5 -/

/-- C5 counterexample: the unrestricted invariant claim is false.  Because
`MintMBT` accepts non-positive amounts (claim C2), the state `sNeg` reached
from the zero-initialized holdings by the single operation
`MintMBT(alice, -100)` has a negative gold constituent total. -/
theorem c5_counterexample :
    Reachable sNeg ∧ sNeg.holdings.totalBGTValue < 0 :=
  ⟨Reachable.mint 0 ("MBT-1") ("alice") (-100) (Reachable.init 0) rfl
      (by norm_num [mintMBT, GetUserBalance, initialHoldings, putToken,
        updateBasketHoldings, checkRebalanceNeeded, qabs, GOLD_ALLOCATION,
        SILVER_ALLOCATION, PLATINUM_ALLOCATION, MAX_DEVIATION_PERCENT,
        REBALANCE_INTERVAL_DAYS, sNeg, tokNeg, hNeg]),
    by norm_num [sNeg, hNeg]⟩

/-- C5 amended: restricted to non-negative mint and redeem amounts (the
restriction the missing positivity guard would enforce), every state
reachable from the zero-initialized holdings through Mint's additive
update, Redeem's subtractive update and RebalanceBasket's rebalance update
has non-negative constituent totals and satisfies
`totalSupply = Σ constituentTotals` exactly (hence within every
tolerance). -/
theorem c5_amended_invariant (s : LedgerState) (hs : ReachableNN s) :
    0 ≤ s.holdings.totalBGTValue ∧ 0 ≤ s.holdings.totalBSTValue ∧
    0 ≤ s.holdings.totalBPTValue ∧
    s.holdings.totalMBTSupply =
      s.holdings.totalBGTValue + s.holdings.totalBSTValue + s.holdings.totalBPTValue := by
  obtain ⟨hwf, -, hsup, hbgt, hbst, hbpt⟩ := reachableNN_ledgerInv hs
  have hS : 0 ≤ s.holdings.totalMBTSupply := by
    rw [hsup]
    unfold tokensSupply
    apply List.sum_nonneg
    intro x hx
    obtain ⟨t, ht, rfl⟩ := List.mem_map.mp hx
    exact (hwf t ht).1
  refine ⟨?_, ?_, ?_, ?_⟩
  · rw [hbgt]
    exact mul_nonneg hS (by norm_num [GOLD_ALLOCATION])
  · rw [hbst]
    exact mul_nonneg hS (by norm_num [SILVER_ALLOCATION])
  · rw [hbpt]
    exact mul_nonneg hS (by norm_num [PLATINUM_ALLOCATION])
  · rw [hbgt, hbst, hbpt]
    norm_num [GOLD_ALLOCATION, SILVER_ALLOCATION, PLATINUM_ALLOCATION]
    ring

/-- C5 witness: the invariant evaluated on the state reached by minting
1000 from the zero-initialized ledger. -/
theorem c5_witness :
    0 ≤ s1000.holdings.totalBGTValue ∧ 0 ≤ s1000.holdings.totalBSTValue ∧
    0 ≤ s1000.holdings.totalBPTValue ∧
    s1000.holdings.totalMBTSupply = s1000.holdings.totalBGTValue +
      s1000.holdings.totalBSTValue + s1000.holdings.totalBPTValue :=
  c5_amended_invariant s1000
    (ReachableNN.mint 0 ("MBT-1") ("alice") 1000 (ReachableNN.init 0) (by norm_num) rfl
      (by norm_num [mintMBT, GetUserBalance, initialHoldings, putToken,
        updateBasketHoldings, checkRebalanceNeeded, qabs, GOLD_ALLOCATION,
        SILVER_ALLOCATION, PLATINUM_ALLOCATION, MAX_DEVIATION_PERCENT,
        REBALANCE_INTERVAL_DAYS, s1000, tok1000]))

/-! ## Claim C6 -/

/-- C6: minting `a` and then redeeming the full amount `a` from the minted
token (by its owner) deletes the token record and restores all four
AggregateHoldings totals exactly (the rational model makes the deltas
cancel identically, so "within tolerance" holds with equality). -/
theorem c6_mint_redeem_roundtrip (now1 now2 : ℚ) (tid owner : String) (a : ℚ)
    (s : LedgerState)
    (hfresh : s.tokens.find? (fun u => u.tokenID = tid) = none)
    (ha : 0 < a) (hbal : a ≤ GetUserBalance) :
    ∃ s1 s2, mintMBT now1 tid owner a s = Except.ok s1 ∧
      redeemMBT now2 tid owner a s1 = Except.ok s2 ∧
      s2.tokens.find? (fun u => u.tokenID = tid) = none ∧
      s2.tokens = s.tokens ∧
      s2.holdings.totalMBTSupply = s.holdings.totalMBTSupply ∧
      s2.holdings.totalBGTValue = s.holdings.totalBGTValue ∧
      s2.holdings.totalBSTValue = s.holdings.totalBSTValue ∧
      s2.holdings.totalBPTValue = s.holdings.totalBPTValue := by
  have hnone : ∀ u ∈ s.tokens, ¬ u.tokenID = tid := by
    intro u hu
    simpa using List.find?_eq_none.mp hfresh u hu
  have hfilter : s.tokens.filter (fun u => u.tokenID ≠ tid) = s.tokens :=
    List.filter_eq_self.mpr (fun u hu => by simpa using hnone u hu)
  simp only [mintMBT, if_neg (not_lt.mpr hbal), putToken, hfilter]
  refine ⟨_,
    ⟨s.tokens,
      updateBasketHoldings now2
        (updateBasketHoldings now1 s.holdings a (a * GOLD_ALLOCATION)
          (a * SILVER_ALLOCATION) (a * PLATINUM_ALLOCATION) true) a
        (a * GOLD_ALLOCATION * (a / a)) (a * SILVER_ALLOCATION * (a / a))
        (a * PLATINUM_ALLOCATION * (a / a)) false⟩,
    rfl, ?_, hfresh, rfl, ?_, ?_, ?_, ?_⟩
  · simp only [redeemMBT]
    rw [List.find?_cons_of_pos _ (by simp)]
    dsimp only
    rw [if_neg (by simp), if_neg (not_lt.mpr le_rfl), if_pos rfl]
    simp [delToken, hfilter]
    exact hnone
  all_goals (simp [updateBasketHoldings, div_self ha.ne']; try ring)

/-- C6 witness: mint 1000 then fully redeem it on the empty ledger. -/
theorem c6_witness :
    ∃ s1 s2, mintMBT 0 ("MBT-1") ("alice") 1000 initialState = Except.ok s1 ∧
      redeemMBT 5 ("MBT-1") ("alice") 1000 s1 = Except.ok s2 ∧
      s2.tokens.find? (fun u => u.tokenID = "MBT-1") = none ∧
      s2.tokens = initialState.tokens ∧
      s2.holdings.totalMBTSupply = initialState.holdings.totalMBTSupply ∧
      s2.holdings.totalBGTValue = initialState.holdings.totalBGTValue ∧
      s2.holdings.totalBSTValue = initialState.holdings.totalBSTValue ∧
      s2.holdings.totalBPTValue = initialState.holdings.totalBPTValue :=
  c6_mint_redeem_roundtrip 0 5 ("MBT-1") ("alice") 1000 initialState rfl
    (by norm_num) (by norm_num [GetUserBalance])

/-! ## Claim C7 -/

/-- C7 counterexample: the claim says every code path performing the time
gate treats a missing/unparsable `lastRebalance` as rebalance-overdue.
`EvaluateRebalanceNeed` does the opposite: it substitutes
`time.Now().Add(-24h)` ("assume recent rebalance"), so
`daysSinceRebalance = 1`, which under the default 30-day interval is *not*
overdue — while `CheckRebalanceNeeded` on the same holdings does return
`true`. -/
theorem c7_counterexample :
    hNoTs.lastRebalance = none ∧
    evalDaysSinceRebalance 100 hNoTs = 1 ∧
    ¬ ((defaultPolicy.rebalanceIntervalDays : ℚ) ≤ evalDaysSinceRebalance 100 hNoTs) ∧
    checkRebalanceNeeded 100 hNoTs = true := by
  refine ⟨rfl, rfl, ?_, ?_⟩
  · norm_num [evalDaysSinceRebalance, hNoTs, defaultPolicy]
  · norm_num [checkRebalanceNeeded, qabs, hNoTs, GOLD_ALLOCATION, SILVER_ALLOCATION,
      PLATINUM_ALLOCATION, MAX_DEVIATION_PERCENT]

/-- C7 amended: the fail-safe holds in `CheckRebalanceNeeded` (an
unparsable/missing timestamp makes it return `true` whenever supply and
constituent total are nonzero), but `EvaluateRebalanceNeed` instead treats
the timestamp as a rebalance 1 day ago, which under the default 30-day
interval is not overdue (fail-safe *away* from rebalancing).  The
evaluator's request-creation outcome is nevertheless unaffected, because
requests are gated solely on the deviation threshold (claims C3/C4). -/
theorem c7_amended_time_gate (now : ℚ) (h : BasketHolding)
    (hnone : h.lastRebalance = none)
    (hs : h.totalMBTSupply ≠ 0)
    (ht : h.totalBGTValue + h.totalBSTValue + h.totalBPTValue ≠ 0) :
    checkRebalanceNeeded now h = true ∧
    evalDaysSinceRebalance now h = 1 ∧
    ¬ ((defaultPolicy.rebalanceIntervalDays : ℚ) ≤ evalDaysSinceRebalance now h) := by
  refine ⟨?_, ?_, ?_⟩
  · unfold checkRebalanceNeeded
    rw [if_neg hs]
    simp only [if_neg ht]
    split_ifs
    · rfl
    · rw [hnone]
  · simp [evalDaysSinceRebalance, hnone]
  · simp [evalDaysSinceRebalance, hnone, defaultPolicy]

/-- C7 witness: the amended theorem at the concrete timestampless holdings
`hNoTs`. -/
theorem c7_witness :
    checkRebalanceNeeded 100 hNoTs = true ∧
    evalDaysSinceRebalance 100 hNoTs = 1 ∧
    ¬ ((defaultPolicy.rebalanceIntervalDays : ℚ) ≤ evalDaysSinceRebalance 100 hNoTs) :=
  c7_amended_time_gate 100 hNoTs rfl (by norm_num [hNoTs]) (by norm_num [hNoTs])

/-! ## Claim C8 -/

/-- C8: `CalculateMBTNAV` returns 0 when `totalSupply = 0` (the division is
guarded, never executed), and otherwise returns exactly
`(Σ_a constituentTotals[a] · prices[a]) / totalSupply`, for every holdings
record and every price mapping.  The embedding is total, so no exception is
possible. -/
theorem c8_nav_safety (h : BasketHolding) (prices : MetalPrices) :
    (h.totalMBTSupply = 0 → calculateMBTNAV h prices = 0) ∧
    (h.totalMBTSupply ≠ 0 → calculateMBTNAV h prices =
      (h.totalBGTValue * prices.bgt + h.totalBSTValue * prices.bst +
        h.totalBPTValue * prices.bpt) / h.totalMBTSupply) := by
  constructor <;> intro hs <;> simp [calculateMBTNAV, hs]

/-- C8 witness: the zero-supply holdings give NAV 0; the nonzero `h1` give
the weighted quotient, both under the stubbed price map. -/
theorem c8_nav_safety_witness :
    calculateMBTNAV (initialHoldings 0) GetMBTPrices = 0 ∧
    calculateMBTNAV h1 GetMBTPrices =
      (h1.totalBGTValue * GetMBTPrices.bgt + h1.totalBSTValue * GetMBTPrices.bst +
        h1.totalBPTValue * GetMBTPrices.bpt) / h1.totalMBTSupply :=
  ⟨(c8_nav_safety (initialHoldings 0) GetMBTPrices).1 rfl,
    (c8_nav_safety h1 GetMBTPrices).2 (by norm_num [h1])⟩

/-! ## Claim C9 -/

/-- C9: `ExecuteRebalance` succeeds exactly from APPROVED, or from PENDING
with `approvalRequired = false`; in every other state — PENDING with
`approvalRequired = true` and the terminal states EXECUTED and FAILED — it
returns the NotReady error before any state write, leaving the request and
the holdings unchanged. -/
theorem c9_execute_gate (now : ℚ) (req : RebalanceRequest) (h : BasketHolding) :
    (req.status = Status.APPROVED ∨
        (req.status = Status.PENDING ∧ req.approvalRequired = false) →
      executeRebalance now req h =
        Except.ok ({ req with status := Status.EXECUTED, executedAt := some now },
          updateBasketAfterRebalance now h req.devGold req.devSilver req.devPlatinum)) ∧
    (¬(req.status = Status.APPROVED ∨
        (req.status = Status.PENDING ∧ req.approvalRequired = false)) →
      executeRebalance now req h = Except.error MBTError.notReady) := by
  constructor
  · intro hready
    unfold executeRebalance
    rw [if_neg (by tauto)]
  · intro hnot
    unfold executeRebalance
    rw [if_pos (by tauto)]

/-- C9 witness: the auto-approvable PENDING request `req1` executes, and
the terminal FAILED request is rejected with NotReady. -/
theorem c9_execute_gate_witness :
    executeRebalance 0 req1 h1 =
      Except.ok (req1executed,
        updateBasketAfterRebalance 0 h1 req1.devGold req1.devSilver req1.devPlatinum) ∧
    executeRebalance 0 reqFailed h1 = Except.error MBTError.notReady :=
  ⟨(c9_execute_gate 0 req1 h1).1 (Or.inr ⟨rfl, rfl⟩),
    (c9_execute_gate 0 reqFailed h1).2 (by simp [reqFailed, req1])⟩

/-! ## Claim C10 -/

/-- C10: `RedeemMBT` performs no positivity check on the amount — the only
amount guard is `amount > token.totalValue`.  For a stored token with
positive value and matching owner: redeeming `a ≤ 0` succeeds with the
exact deltas `token.x · (a / token.totalValue)`; at `a = 0` all deltas are
zero (token and holdings totals unchanged), and at `a < 0` the token's
totalValue, each of its constituent amounts, and every AggregateHoldings
total strictly *increase*. -/
theorem c10_redeem_no_positivity_check (now a : ℚ) (s : LedgerState) (tid u : String)
    (t : MBTToken)
    (hfind : s.tokens.find? (fun x => x.tokenID = tid) = some t)
    (howner : t.owner = u) (htv : 0 < t.totalValue)
    (hbgt : 0 < t.bgtAmount) (hbst : 0 < t.bstAmount) (hbpt : 0 < t.bptAmount)
    (ha : a ≤ 0) :
    ∃ s' t', redeemMBT now tid u a s = Except.ok s' ∧
      s'.tokens.find? (fun x => x.tokenID = tid) = some t' ∧
      t'.totalValue = t.totalValue - a ∧
      t'.bgtAmount = t.bgtAmount - t.bgtAmount * (a / t.totalValue) ∧
      t'.bstAmount = t.bstAmount - t.bstAmount * (a / t.totalValue) ∧
      t'.bptAmount = t.bptAmount - t.bptAmount * (a / t.totalValue) ∧
      s'.holdings.totalMBTSupply = s.holdings.totalMBTSupply - a ∧
      s'.holdings.totalBGTValue = s.holdings.totalBGTValue - t.bgtAmount * (a / t.totalValue) ∧
      s'.holdings.totalBSTValue = s.holdings.totalBSTValue - t.bstAmount * (a / t.totalValue) ∧
      s'.holdings.totalBPTValue = s.holdings.totalBPTValue - t.bptAmount * (a / t.totalValue) ∧
      (a = 0 → t'.totalValue = t.totalValue ∧ t'.bgtAmount = t.bgtAmount ∧
        s'.holdings.totalMBTSupply = s.holdings.totalMBTSupply ∧
        s'.holdings.totalBGTValue = s.holdings.totalBGTValue) ∧
      (a < 0 → t.totalValue < t'.totalValue ∧ t.bgtAmount < t'.bgtAmount ∧
        t.bstAmount < t'.bstAmount ∧ t.bptAmount < t'.bptAmount ∧
        s.holdings.totalMBTSupply < s'.holdings.totalMBTSupply ∧
        s.holdings.totalBGTValue < s'.holdings.totalBGTValue ∧
        s.holdings.totalBSTValue < s'.holdings.totalBSTValue ∧
        s.holdings.totalBPTValue < s'.holdings.totalBPTValue) := by
  have halt : a < t.totalValue := lt_of_le_of_lt ha htv
  have hid : t.tokenID = tid := by simpa using List.find?_some hfind
  simp only [redeemMBT, hfind, putToken]
  rw [if_neg (by simp [howner]), if_neg (not_lt.mpr halt.le), if_neg (ne_of_lt halt)]
  refine ⟨_, _, rfl, List.find?_cons_of_pos _ (by simp [hid]), rfl, rfl, rfl, rfl,
    ?_, ?_, ?_, ?_, ?_, ?_⟩
  · simp [updateBasketHoldings]
  · simp [updateBasketHoldings]
  · simp [updateBasketHoldings]
  · simp [updateBasketHoldings]
  · intro h0
    subst h0
    simp [updateBasketHoldings]
  · intro ha'
    have hratio : a / t.totalValue < 0 := div_neg_of_neg_of_pos ha' htv
    have d1 : t.bgtAmount * (a / t.totalValue) < 0 := mul_neg_of_pos_of_neg hbgt hratio
    have d2 : t.bstAmount * (a / t.totalValue) < 0 := mul_neg_of_pos_of_neg hbst hratio
    have d3 : t.bptAmount * (a / t.totalValue) < 0 := mul_neg_of_pos_of_neg hbpt hratio
    simp only [updateBasketHoldings]
    refine ⟨by linarith, by linarith, by linarith, by linarith, ?_, ?_, ?_, ?_⟩ <;>
      simp <;> linarith

/-- C10 witness: redeeming −100 from bob's 1000-value token strictly grows
the token and the aggregate holdings. -/
theorem c10_witness :
    ∃ s' t', redeemMBT 5 ("T1") ("bob") (-100) s10 = Except.ok s' ∧
      s'.tokens.find? (fun x => x.tokenID = "T1") = some t' ∧
      t'.totalValue = tokC.totalValue - (-100) ∧
      t'.bgtAmount = tokC.bgtAmount - tokC.bgtAmount * ((-100) / tokC.totalValue) ∧
      t'.bstAmount = tokC.bstAmount - tokC.bstAmount * ((-100) / tokC.totalValue) ∧
      t'.bptAmount = tokC.bptAmount - tokC.bptAmount * ((-100) / tokC.totalValue) ∧
      s'.holdings.totalMBTSupply = s10.holdings.totalMBTSupply - (-100) ∧
      s'.holdings.totalBGTValue =
        s10.holdings.totalBGTValue - tokC.bgtAmount * ((-100) / tokC.totalValue) ∧
      s'.holdings.totalBSTValue =
        s10.holdings.totalBSTValue - tokC.bstAmount * ((-100) / tokC.totalValue) ∧
      s'.holdings.totalBPTValue =
        s10.holdings.totalBPTValue - tokC.bptAmount * ((-100) / tokC.totalValue) ∧
      ((-100 : ℚ) = 0 → t'.totalValue = tokC.totalValue ∧ t'.bgtAmount = tokC.bgtAmount ∧
        s'.holdings.totalMBTSupply = s10.holdings.totalMBTSupply ∧
        s'.holdings.totalBGTValue = s10.holdings.totalBGTValue) ∧
      ((-100 : ℚ) < 0 → tokC.totalValue < t'.totalValue ∧ tokC.bgtAmount < t'.bgtAmount ∧
        tokC.bstAmount < t'.bstAmount ∧ tokC.bptAmount < t'.bptAmount ∧
        s10.holdings.totalMBTSupply < s'.holdings.totalMBTSupply ∧
        s10.holdings.totalBGTValue < s'.holdings.totalBGTValue ∧
        s10.holdings.totalBSTValue < s'.holdings.totalBSTValue ∧
        s10.holdings.totalBPTValue < s'.holdings.totalBPTValue) :=
  c10_redeem_no_positivity_check 5 (-100) s10 ("T1") ("bob") tokC
    (by simp [s10, tokC]) rfl (by norm_num [tokC]) (by norm_num [tokC])
    (by norm_num [tokC]) (by norm_num [tokC]) (by norm_num)

end MBT
